import Mathlib

/-!
Verification of the ESPTimeCast web-installer core (`esptimecast.js`).

The development shallowly embeds the identification protocol, the flash
orchestration retry policy, the SLIP frame codec, the magic-number
resolution table, and the port-cleanup behaviour of the source file.
Byte values are `Nat`; device replies are oracles passed to the embedded
control flow; transport side effects are recorded as explicit action
traces so that resource-handling properties can be stated.
-/

/- ============================================================
   SLIP frame codec (`slipEncode`, source lines 41-50)
   ============================================================ -/

/-- Escape of one byte inside a SLIP frame: `0xC0 ↦ 0xDB 0xDC`,
`0xDB ↦ 0xDB 0xDD`, anything else is emitted verbatim
(the three branches of the `for` body of `slipEncode`). -/
def slipEscape (b : Nat) : List Nat :=
  if b = 0xC0 then [0xDB, 0xDC]
  else if b = 0xDB then [0xDB, 0xDD]
  else [b]

/-- `slipEncode(data)`: a `0xC0` delimiter, the escaped payload, and a
closing `0xC0` delimiter (source lines 41-50). -/
def slipEncode (data : List Nat) : List Nat :=
  0xC0 :: (data.flatMap slipEscape ++ [0xC0])

/-- Inverse of the escape table, applied to the interior of a frame:
`0xDB 0xDC ↦ 0xC0`, `0xDB 0xDD ↦ 0xDB`, other bytes pass through.
(The source never decodes; this is the spec-mandated inverse.) -/
def slipDecode : List Nat → List Nat
  | [] => []
  | b :: rest =>
    if b = 0xDB then
      match rest with
      | [] => [b]
      | c :: rest2 =>
        (if c = 0xDC then 0xC0 else if c = 0xDD then 0xDB else c) :: slipDecode rest2
    else b :: slipDecode rest

/- ============================================================
   Transport action traces

   Every observable transport interaction performed by `runFlasher`
   (source lines 208-388) is recorded as one `Act`.  UI-only calls
   (slides, hints, logging, the minimum-detect-time pacing sleep) have
   no transport effect and are not traced.
   ============================================================ -/

/-- One observable transport action of the identification flow. -/
inductive Act
  /-- `navigator.serial.requestPort()` (line 217). -/
  | requestPort
  /-- `port.open({ baudRate })` (line 272). -/
  | openPort (baud : Nat)
  /-- `port.writable.getWriter()` (line 273). -/
  | getWriter
  /-- `port.readable.getReader()` (line 274). -/
  | getReader
  /-- `writer.write(SYNC_PACKET)` (line 279). -/
  | writeSync
  /-- a read raced against `sleep(ms)` (lines 280, 307). -/
  | readUpTo (ms : Nat)
  /-- `port.setSignals({dataTerminalReady: dtr, requestToSend: rts})`. -/
  | setSignals (dtr rts : Bool)
  /-- `sleep(ms)` on the protocol path. -/
  | sleepMs (ms : Nat)
  /-- `writer.write(READ_REG_PACKET)` (line 304). -/
  | writeReadReg
  /-- `writer.releaseLock()` (lines 339, 384). -/
  | releaseWriter
  /-- `reader.releaseLock()` (lines 340, 385). -/
  | releaseReader
  /-- `port.close()` (line 345). -/
  | closePort
  deriving DecidableEq, Repr

/-- Terminal outcome of one `runFlasher` session, as signalled to the
presentation layer. -/
inductive Outcome
  /-- quiet return after the user cancels the port picker (line 222). -/
  | cancelled
  /-- `showInstallPrompt(port, chip, build, version)` reached. -/
  | awaitConfirm (chip : String)
  /-- `slideUnknownESP()` (line 352). -/
  | unknownESP
  /-- `slideUnsupportedBoard(chip)` (line 360). -/
  | unsupported (chip : String)
  /-- an error was thrown and caught at line 368 (`slideError` path). -/
  | errorOut (msg : String)
  deriving DecidableEq, Repr

/- ============================================================
   Sync handshake (source lines 277-295)
   ============================================================ -/

/-- Whether the unpadded lowercase hex rendering of a reply contains the
substring `"18"` — the JS test
`[...value].map(b => b.toString(16)).join("").includes("18")`
(line 281), with `includes("18")` unfolded to a two-character scan. -/
def containsHex18 : List Char → Bool
  | [] => false
  | [_] => false
  | c :: d :: rest => (c == '1' && d == '8') || containsHex18 (d :: rest)

/-- The unpadded lowercase hex join of a reply's bytes:
`[...value].map(b => b.toString(16)).join("")` as a character list. -/
def hexJoin (v : List Nat) : List Char :=
  (v.map (Nat.toDigits 16)).join

/-- The sync-acknowledgement test applied to one received reply. -/
def syncMatches (v : List Nat) : Bool :=
  containsHex18 (hexJoin v)

/-- One sync read slot: `none` models the 100ms timeout winning the race
(`value` is `null`), `some v` models bytes `v` arriving. -/
def syncStep : Option (List Nat) → Bool
  | some v => syncMatches v
  | none => false

/-- Actions of one sync attempt: write the sync frame, then read with a
100ms bound (lines 279-280). -/
def framePair : List Act := [Act.writeSync, Act.readUpTo 100]

/-- The DTR/RTS reset pulse issued once when `i === 10` (lines 286-291). -/
def resetPulse : List Act :=
  [Act.setSignals false true, Act.sleepMs 100,
   Act.setSignals true false, Act.sleepMs 100,
   Act.setSignals false false]

/-- The sync loop body, one list entry per remaining iteration, with `i`
the current 0-based loop index (lines 278-293): write the frame, race a
read against 100ms; break on a matching reply; fire the reset pulse once
after the 11th unacknowledged attempt (`i === 10`). -/
def syncLoopAux : List (Option (List Nat)) → Nat → List Act × Bool
  | [], _ => ([], false)
  | r :: rs, i =>
    if syncStep r then (framePair, true)
    else
      let rest := syncLoopAux rs (i + 1)
      (framePair ++ (if i = 10 then resetPulse else []) ++ rest.1, rest.2)

/-- The whole sync loop: at most 20 attempts (`for (let i = 0; i < 20; ...)`),
returning the transport trace and the final `synced` flag. -/
def syncLoop (replies : List (Option (List Nat))) : List Act × Bool :=
  syncLoopAux (replies.take 20) 0

/-- Trace of `n` consecutive unacknowledged sync attempts starting at
loop index `i` (used to state the reset-trigger property). -/
def failTrace : Nat → Nat → List Act
  | 0, _ => []
  | n + 1, i => framePair ++ (if i = 10 then resetPulse else []) ++ failTrace n (i + 1)

/- ============================================================
   Magic-number probe (source lines 300-319)

   The probe writes `READ_REG_PACKET` up to 5 times; each attempt
   accumulates 10 read slices (60ms timeout each) into a hex string and
   matches the register-read regex.  The reply-parsing of one attempt
   (hex accumulation, regex match, little-endian byte-pair reversal,
   lines 306-316) is abstracted as an oracle `Option Nat` per attempt:
   `some m` = this attempt's accumulated hex matched and parsed to the
   magic value `m`, `none` = no match this attempt.
   ============================================================ -/

/-- One probe attempt per list entry (lines 303-319): write the frame, do
the 10 bounded read slices, break with the parsed magic on a regex match,
otherwise sleep 100ms and retry. -/
def probeLoopAux : List (Option Nat) → List Act × Option Nat
  | [] => ([], none)
  | p :: ps =>
    let pre := Act.writeReadReg :: List.replicate 10 (Act.readUpTo 60)
    match p with
    | some m => (pre, some m)
    | none =>
      let rest := probeLoopAux ps
      (pre ++ Act.sleepMs 100 :: rest.1, rest.2)

/-- The whole probe: at most 5 attempts (`for (let attempt = 0; attempt < 5; ...)`). -/
def probeLoop (parses : List (Option Nat)) : List Act × Option Nat :=
  probeLoopAux (parses.take 5)

/- ============================================================
   USB-PID hint and magic resolution (source lines 240-249, 321-331)
   ============================================================ -/

/-- The USB-PID detection of lines 240-249: Espressif vendor `0x303A`
with product id in `{0x1001, 0x1002, 0x1003}` is tagged `"NATIVE_CDC"`,
product id in `{0x0002, 0x0003}` is tagged `"ESP32-S2"`, anything else
yields no hint (`chipByPID` stays `null`). -/
def chipByPID (vendorId productId : Nat) : Option String :=
  if vendorId = 0x303A then
    if productId ∈ [0x1001, 0x1002, 0x1003] then some "NATIVE_CDC"
    else if productId ∈ [0x0002, 0x0003] then some "ESP32-S2"
    else none
  else none

/-- The result resolution of lines 321-331: the `chipByPID === "ESP32-C3"`
override first, then the ordered magic-value alias chain, defaulting to
the initial `result = "Unknown ESP"` (line 211). -/
def resolveChip (pid : Option String) (magic : Option Nat) : String :=
  if pid = some "ESP32-C3" then "ESP32-C3"
  else if magic = some 0xFFF0C101 ∨ magic = some 0xC101 then "ESP8266"
  else if magic = some 0x00F01D83 then "ESP32"
  else if magic ∈ ([0x00000009, 0x00000000, 0x9].map some) then "ESP32-S3"
  else if magic ∈ ([0x6921506F, 0x1B31506F, 0x4881606F, 0x09].map some) then "ESP32-C3"
  else if magic ∈ ([0x000007C6, 0x00004359, 0x4359, 0x07C6].map some) then "ESP32-S2"
  else if magic ∈ ([0x2CE0806F, 0x2CE0106F].map some) then "ESP32-C6"
  else if magic = some 0xD422F199 then "ESP32-H2"
  else if magic = some 0x1101406F then "ESP32-C2"
  else "Unknown ESP"

/-- The alias table of lines 323-330, row by row, each magic value paired
with the family the chain actually yields for it.  Because lookup is
first-match, the duplicated value 9 — listed again as `0x09` inside the
ESP32-C3 row — resolves to `"ESP32-S3"` (the earlier row), so that is
the family recorded for the `0x09` entry here. -/
def tablePairs : List (Nat × String) :=
  [(0xFFF0C101, "ESP8266"),
   (0xC101, "ESP8266"),
   (0x00F01D83, "ESP32"),
   (0x00000009, "ESP32-S3"),
   (0x00000000, "ESP32-S3"),
   (0x9, "ESP32-S3"),
   (0x6921506F, "ESP32-C3"),
   (0x1B31506F, "ESP32-C3"),
   (0x4881606F, "ESP32-C3"),
   (0x09, "ESP32-S3"),
   (0x000007C6, "ESP32-S2"),
   (0x00004359, "ESP32-S2"),
   (0x4359, "ESP32-S2"),
   (0x07C6, "ESP32-S2"),
   (0x2CE0806F, "ESP32-C6"),
   (0x2CE0106F, "ESP32-C6"),
   (0xD422F199, "ESP32-H2"),
   (0x1101406F, "ESP32-C2")]

/-- Every magic value that appears in the alias table of lines 323-330. -/
def tableMagics : List Nat :=
  tablePairs.map Prod.fst

/- ============================================================
   Firmware manifest (source lines 77-111)
   ============================================================ -/

/-- One entry of `manifest.builds`. -/
structure Build where
  chipFamily : String
  factory : String
  update : String
  deriving DecidableEq, Repr

/-- `manifest.builds` with `basePath = "v1.0.1/"` spliced in (lines 83-111). -/
def manifestBuilds : List Build :=
  [⟨"ESP8266", "v1.0.1/esp8266.bin", "v1.0.1/esp8266.bin"⟩,
   ⟨"ESP32", "v1.0.1/esp32_full.bin", "v1.0.1/esp32_app.bin"⟩,
   ⟨"ESP32-C3", "v1.0.1/esp32c3_full.bin", "v1.0.1/esp32c3_app.bin"⟩,
   ⟨"ESP32-S2", "v1.0.1/esp32s2_full.bin", "v1.0.1/esp32s2_app.bin"⟩,
   ⟨"ESP32-S3", "v1.0.1/esp32s3_full.bin", "v1.0.1/esp32s3_app.bin"⟩]

/-- `manifest.builds.find(b => b.chipFamily === result)` (lines 257, 357). -/
def findBuild (chip : String) : Option Build :=
  manifestBuilds.find? (fun b => b.chipFamily == chip)

/- ============================================================
   The identification flow `runFlasher` (source lines 208-388)
   ============================================================ -/

/-- Fixed opening actions of the non-S2 path (lines 272-274). -/
def openTrace : List Act := [Act.openPort 115200, Act.getWriter, Act.getReader]

/-- The transport trace of a run that never synced: the open/lock
actions, the full sync loop, and the two lock releases performed by the
`finally` block (lines 383-386).  No `port.close()` happens here. -/
def syncFailTraceOf (syncReplies : List (Option (List Nat))) : List Act :=
  openTrace ++ (syncLoop syncReplies).1 ++ [Act.releaseWriter, Act.releaseReader]

/-- The transport trace of a run that synced and resolved `result`:
open/lock actions, sync loop, the 200ms quiescence wait (line 298), the
probe, the two lock releases of lines 339-340, and — only when the
resolved family is not `"ESP32-S2"` — the `port.close()` of line 345. -/
def identifiedTrace (result : String) (syncReplies : List (Option (List Nat)))
    (probeParses : List (Option Nat)) : List Act :=
  openTrace ++ (syncLoop syncReplies).1 ++ [Act.sleepMs 200] ++ (probeLoop probeParses).1
    ++ [Act.releaseWriter, Act.releaseReader]
    ++ (if result = "ESP32-S2" then [] else [Act.closePort])

/-- The dispatch on the resolved result (lines 349-366): Case A
`"Unknown ESP"`, Case B a recognized family without a registered build,
Case C a supported family (install prompt). -/
def identifyOutcome (result : String) : Outcome :=
  if result = "Unknown ESP" then Outcome.unknownESP
  else
    match findBuild result with
    | none => Outcome.unsupported result
    | some _ => Outcome.awaitConfirm result

/-- Lines 272-366: the branch of `runFlasher` taken when the USB PID did
not short-circuit to ESP32-S2.  Opens the port at 115200 baud, runs the
sync loop, throws `"Sync Failed"` when unsynced (the `finally` then
releases both locks and the `catch` shows the error slide — the port is
not closed on this path), otherwise waits 200ms, probes the magic value,
resolves the family, releases the locks, closes the port unless the
resolved family is `"ESP32-S2"`, and dispatches on the result. -/
def runFlasherOpened (pid : Option String) (syncReplies : List (Option (List Nat)))
    (probeParses : List (Option Nat)) : Outcome × List Act :=
  if (syncLoop syncReplies).2 = false then
    (Outcome.errorOut "Sync Failed", syncFailTraceOf syncReplies)
  else
    (identifyOutcome (resolveChip pid (probeLoop probeParses).2),
     identifiedTrace (resolveChip pid (probeLoop probeParses).2) syncReplies probeParses)

/-- The full `runFlasher` session (lines 208-388).  `granted = false`
models the user cancelling the port picker (`NotFoundError`, quiet
return).  With the Espressif S2 product ids the flow reports ESP32-S2
and goes straight to the install prompt without any further transport
action (lines 251-266, including the `if (!build) throw` guard);
otherwise it runs the opened-port flow. -/
def runFlasher (granted : Bool) (vendorId productId : Nat)
    (syncReplies : List (Option (List Nat))) (probeParses : List (Option Nat)) :
    Outcome × List Act :=
  if granted = false then (Outcome.cancelled, [Act.requestPort])
  else
    let pid := chipByPID vendorId productId
    if pid = some "ESP32-S2" then
      if (findBuild "ESP32-S2").isSome then
        (Outcome.awaitConfirm "ESP32-S2", [Act.requestPort])
      else
        (Outcome.errorOut "ESP32-S2 build not found", [Act.requestPort])
    else
      let res := runFlasherOpened pid syncReplies probeParses
      (res.1, Act.requestPort :: res.2)

/- ============================================================
   Flash retry orchestration `flashFirmwareWithRetry`
   (source lines 116-157) and `detectESP32S2Port` (lines 52-72)
   ============================================================ -/

/-- Outcome of one `flashFirmware` invocation, as observed by the retry
loop: success, or failure after `durationMs` elapsed wall-clock
milliseconds (`Date.now() - startTime`, line 128). -/
inductive AttemptOutcome
  | success
  | failure (durationMs : Nat)

/-- Terminal classification of the retry loop. -/
inductive FlashOutcome
  /-- `log("✅ Flash succeeded!")` then return (line 125-126). -/
  | flashOk
  /-- `slideBootmode()` then return (lines 136-141). -/
  | bootloaderRequired
  /-- `detectESP32S2Port()` yielded no port: `if (!currentPort) return` (line 149). -/
  | cancelled
  /-- `slideError()` then return (lines 151-153). -/
  | fatalError
  /-- the `for` loop ran out of attempts without returning (line 156). -/
  | exhausted
  deriving DecidableEq, Repr

/-- Observable actions of the retry loop. -/
inductive RAct
  /-- `flashFirmware(currentPort, chip, firmwarePath)` call number `n` (line 124). -/
  | flashAttempt (n : Nat)
  /-- `safeClosePort(currentPort)` (line 146). -/
  | closeCurrentPort
  /-- `sleep(ms)` (line 147). -/
  | sleepMs (ms : Nat)
  /-- `detectESP32S2Port()` (line 148). -/
  | redetectPort
  deriving DecidableEq, Repr

/-- The body of `flashFirmwareWithRetry` (lines 119-156): `attempt` is
the 1-based attempt counter, the fuel is the number of loop iterations
left (`maxRetries - attempt + 1`).  `outcome n` is the oracle result of
flash attempt `n`; `reacquireOk` tells whether `detectESP32S2Port()`
yields a port (`false` = user aborts the re-detect picker).  Failure
handling follows lines 127-154: S2 with `duration > 15000` shows the
boot-mode slide and stops; otherwise a first-attempt S2 failure closes
the port, sleeps 1000ms and re-detects; everything else is a hard fail. -/
def flashRetryAux (chip : String) (outcome : Nat → AttemptOutcome) (reacquireOk : Bool) :
    Nat → Nat → FlashOutcome × Nat × List RAct
  | attempt, 0 => (FlashOutcome.exhausted, attempt - 1, [])
  | attempt, fuel + 1 =>
    match outcome attempt with
    | AttemptOutcome.success => (FlashOutcome.flashOk, attempt, [RAct.flashAttempt attempt])
    | AttemptOutcome.failure d =>
      if chip = "ESP32-S2" ∧ d > 15000 then
        (FlashOutcome.bootloaderRequired, attempt, [RAct.flashAttempt attempt])
      else if attempt = 1 ∧ chip = "ESP32-S2" then
        if reacquireOk then
          let rest := flashRetryAux chip outcome reacquireOk (attempt + 1) fuel
          (rest.1, rest.2.1,
           RAct.flashAttempt attempt :: RAct.closeCurrentPort :: RAct.sleepMs 1000
             :: RAct.redetectPort :: rest.2.2)
        else
          (FlashOutcome.cancelled, attempt,
           [RAct.flashAttempt attempt, RAct.closeCurrentPort, RAct.sleepMs 1000,
            RAct.redetectPort])
      else
        (FlashOutcome.fatalError, attempt, [RAct.flashAttempt attempt])

/-- `flashFirmwareWithRetry(port, chip, firmwarePath, maxRetries = 3)`
(line 116): 3-attempt budget, returning the terminal classification, the
number of the attempt on which the loop returned, and the action trace. -/
def flashFirmwareWithRetry (chip : String) (outcome : Nat → AttemptOutcome)
    (reacquireOk : Bool) : FlashOutcome × Nat × List RAct :=
  flashRetryAux chip outcome reacquireOk 1 3

/- ============================================================
   Flash address and firmware-variant selection
   (source lines 179-180, 481-482)
   ============================================================ -/

/-- `const selectedFirmware = keepData ? build.update : build.factory`
(line 180). -/
def selectedFirmware (keepData : Bool) (b : Build) : String :=
  if keepData then b.update else b.factory

/-- `chip.startsWith("ESP32")` (line 482), modelled at the character
level: the characters of `"ESP32"` lead the characters of `chip`. -/
def startsWithESP32 (chip : String) : Bool :=
  "ESP32".data.isPrefixOf chip.data

/-- `const flashAddress = (keepData && chip.startsWith("ESP32")) ? 0x10000 : 0x0000`
(line 482). -/
def flashAddress (keepData : Bool) (chip : String) : Nat :=
  if keepData ∧ startsWithESP32 chip then 0x10000 else 0x0000

/- ============================================================
   `safeClosePort` (source lines 14-34)
   ============================================================ -/

/-- Sub-steps attempted by `safeClosePort`. -/
inductive CAct
  /-- `port.readable.cancel()` (line 19). -/
  | cancelReadable
  /-- `port.writable.getWriter(); writer.releaseLock()` (lines 23-24). -/
  | releaseWritableLock
  /-- `port.close()` (line 29). -/
  | closeCall
  /-- `log("⚠️ Error closing port: ...")` in the outer catch (line 32). -/
  | logError
  deriving DecidableEq, Repr

/-- `safeClosePort(port)` (lines 14-34).  Flags describe the state of the
port handle and which sub-steps would throw.  Returns the performed
sub-steps and the error (if any) propagated to the caller: the two inner
`try { } catch (e) { }` blocks swallow cancel and lock failures, and the
outer `try`/`catch` swallows and logs a `close()` failure, so no error
ever escapes. -/
def safeClosePort (portPresent readableActive writableActive : Bool)
    (cancelThrows lockThrows closeThrows : Bool) : List CAct × Option String :=
  if portPresent = false then ([], none)
  else
    let cancelTrace := if readableActive then [CAct.cancelReadable] else []
    let lockTrace := if writableActive then [CAct.releaseWritableLock] else []
    let body := cancelTrace ++ lockTrace ++ [CAct.closeCall]
    if closeThrows then (body ++ [CAct.logError], none) else (body, none)

/- ============================================================
   Theorems about the codec
   ============================================================ -/

theorem slipDecode_cons_plain (b : Nat) (l : List Nat) (h : ¬ b = 0xDB) :
    slipDecode (b :: l) = b :: slipDecode l := by
  rw [slipDecode.eq_def]; simp [h]

theorem slipDecode_esc_c0 (l : List Nat) :
    slipDecode (0xDB :: 0xDC :: l) = 0xC0 :: slipDecode l := by
  rw [slipDecode.eq_def]; norm_num

theorem slipDecode_esc_db (l : List Nat) :
    slipDecode (0xDB :: 0xDD :: l) = 0xDB :: slipDecode l := by
  rw [slipDecode.eq_def]; norm_num

theorem slipEscape_no_c0 (b : Nat) : 0xC0 ∉ slipEscape b := by
  unfold slipEscape
  by_cases h1 : b = 0xC0 <;> by_cases h2 : b = 0xDB <;> simp [h1, h2] <;> omega

theorem slipDecode_flatMap (data : List Nat) :
    slipDecode (data.flatMap slipEscape) = data := by
  induction data with
  | nil => rfl
  | cons b rest ih =>
    rw [List.flatMap_cons]
    by_cases h1 : b = 0xC0
    · subst h1
      rw [show slipEscape 0xC0 = [0xDB, 0xDC] from rfl, List.cons_append,
        List.singleton_append, slipDecode_esc_c0, ih]
    · by_cases h2 : b = 0xDB
      · subst h2
        rw [show slipEscape 0xDB = [0xDB, 0xDD] from rfl, List.cons_append,
          List.singleton_append, slipDecode_esc_db, ih]
      · have he : slipEscape b = [b] := by simp [slipEscape, h1, h2]
        rw [he, List.singleton_append, slipDecode_cons_plain b _ h2, ih]

theorem c0_not_mem_flatMap (data : List Nat) : 0xC0 ∉ data.flatMap slipEscape := by
  induction data with
  | nil => simp
  | cons b rest ih =>
    simp only [List.flatMap_cons, List.mem_append]
    rintro (h | h)
    · exact slipEscape_no_c0 b h
    · exact ih h

/-- C7. For every byte sequence, the SLIP encoding starts and ends with
`0xC0`, no interior byte equals `0xC0`, and applying the inverse escape
table to the interior reproduces the original sequence exactly. -/
theorem slip_roundtrip (data : List Nat) :
    (slipEncode data).head? = some 0xC0 ∧
    (slipEncode data).getLast? = some 0xC0 ∧
    0xC0 ∉ ((slipEncode data).drop 1).dropLast ∧
    slipDecode (((slipEncode data).drop 1).dropLast) = data := by
  have hdrop : ((slipEncode data).drop 1).dropLast = data.flatMap slipEscape := by
    simp [slipEncode]
  refine ⟨rfl, ?_, ?_, ?_⟩
  · show (0xC0 :: (data.flatMap slipEscape ++ [0xC0])).getLast? = some 0xC0
    rw [← List.cons_append]
    exact List.getLast?_concat _
  · rw [hdrop]; exact c0_not_mem_flatMap data
  · rw [hdrop]; exact slipDecode_flatMap data

/- ============================================================
   Sync handshake lemmas
   ============================================================ -/

theorem syncLoopAux_synced (l : List (Option (List Nat))) :
    ∀ i, (syncLoopAux l i).2 = l.any syncStep := by
  induction l with
  | nil => intro i; rfl
  | cons r rs ih =>
    intro i
    cases h : syncStep r with
    | true => simp [syncLoopAux, h]
    | false => simp [syncLoopAux, h, ih]

theorem syncLoopAux_writeSync_le (l : List (Option (List Nat))) :
    ∀ i, (syncLoopAux l i).1.count Act.writeSync ≤ l.length := by
  induction l with
  | nil => intro i; simp [syncLoopAux]
  | cons r rs ih =>
    intro i
    cases h : syncStep r with
    | true => simp [syncLoopAux, h, framePair]
    | false =>
      by_cases hi : i = 10
      · subst hi
        simp [syncLoopAux, h, framePair, resetPulse, List.count_append, List.count_cons]
        have := ih 11
        omega
      · simp [syncLoopAux, h, hi, framePair, resetPulse, List.count_append, List.count_cons]
        have := ih (i + 1)
        omega

theorem syncLoopAux_read_eq_write (l : List (Option (List Nat))) :
    ∀ i, (syncLoopAux l i).1.count (Act.readUpTo 100)
      = (syncLoopAux l i).1.count Act.writeSync := by
  induction l with
  | nil => intro i; simp [syncLoopAux]
  | cons r rs ih =>
    intro i
    cases h : syncStep r with
    | true => simp [syncLoopAux, h, framePair]
    | false =>
      by_cases hi : i = 10
      · subst hi
        simp [syncLoopAux, h, framePair, resetPulse, List.count_append, List.count_cons]
        have := ih 11
        omega
      · simp [syncLoopAux, h, hi, framePair, resetPulse, List.count_append, List.count_cons]
        have := ih (i + 1)
        omega

theorem syncLoopAux_allFail (l : List (Option (List Nat))) :
    ∀ i, (∀ r ∈ l, syncStep r = false) → (syncLoopAux l i).1 = failTrace l.length i := by
  induction l with
  | nil => intro i _; rfl
  | cons r rs ih =>
    intro i h
    have hr : syncStep r = false := h r (List.mem_cons_self r rs)
    have hrest := ih (i + 1) (fun x hx => h x (List.mem_cons_of_mem _ hx))
    simp [syncLoopAux, hr, failTrace, hrest]

theorem closePort_not_in_syncLoopAux (l : List (Option (List Nat))) :
    ∀ i, Act.closePort ∉ (syncLoopAux l i).1 := by
  induction l with
  | nil => intro i; simp [syncLoopAux]
  | cons r rs ih =>
    intro i
    cases h : syncStep r with
    | true => simp [syncLoopAux, h, framePair]
    | false =>
      by_cases hi : i = 10
      · subst hi
        simp [syncLoopAux, h, framePair, resetPulse, List.mem_append]
        exact ih 11
      · simp [syncLoopAux, h, hi, framePair, resetPulse, List.mem_append]
        exact ih (i + 1)

theorem closePort_not_in_probeLoopAux (l : List (Option Nat)) :
    Act.closePort ∉ (probeLoopAux l).1 := by
  induction l with
  | nil => simp [probeLoopAux]
  | cons p ps ih =>
    cases p with
    | some m =>
      simp [probeLoopAux, List.mem_replicate]
    | none =>
      simp [probeLoopAux, List.mem_append, List.mem_replicate]
      exact ih

/- ============================================================
   Hex-rendering lemmas for the sync acknowledgement test
   ============================================================ -/

theorem containsHex18_cons (l : List Char) (h : containsHex18 l = true) (c : Char) :
    containsHex18 (c :: l) = true := by
  cases l with
  | nil => simp [containsHex18] at h
  | cons d rest => simp [containsHex18, h]

theorem containsHex18_append (l r : List Char) (h : containsHex18 r = true) :
    containsHex18 (l ++ r) = true := by
  induction l with
  | nil => simpa using h
  | cons c l2 ih =>
    rw [List.cons_append]
    exact containsHex18_cons _ ih c

theorem containsHex18_hexJoin_of_18 (v : List Nat) (h : 0x18 ∈ v) :
    containsHex18 (hexJoin v) = true := by
  induction v with
  | nil => simp at h
  | cons b rest ih =>
    rcases List.mem_cons.mp h with hb | hb
    · rw [← hb]
      rw [show hexJoin (0x18 :: rest) = '1' :: '8' :: hexJoin rest from rfl]
      simp [containsHex18]
    · rw [show hexJoin (b :: rest) = Nat.toDigits 16 b ++ hexJoin rest from rfl]
      exact containsHex18_append _ _ (ih hb)

/- ============================================================
   C2 — sync handshake success criterion
   ============================================================ -/

/-- C2 counterexample.  The reply `[0x01, 0x80]` contains no byte equal
to `0x18`, yet its unpadded hex join is `"180"`, so the loop declares
sync success: "success exactly when a reply contains a byte equal to
0x18" is false on the code. -/
theorem sync_byte18_counterexample :
    (syncLoop [some [0x01, 0x80]]).2 = true ∧
    syncMatches [0x01, 0x80] = true ∧
    (0x18 : Nat) ∉ [(0x01 : Nat), 0x80] := by
  refine ⟨?_, ?_, ?_⟩ <;> decide

/-- C2 (amended).  The identifier sends the sync frame at most 20 times,
pairing every frame with a 100ms-bounded read; sync success is declared
exactly when some reply's bytes, rendered as unpadded lowercase hex and
concatenated, contain the substring `"18"` — in particular any reply
containing a byte equal to `0x18` matches — and if no reply over the 20
attempts matches, identification fails with the `"Sync Failed"` error. -/
theorem sync_success_criterion (replies : List (Option (List Nat))) :
    (syncLoop replies).2 = (replies.take 20).any syncStep ∧
    (syncLoop replies).1.count Act.writeSync ≤ 20 ∧
    (syncLoop replies).1.count (Act.readUpTo 100) = (syncLoop replies).1.count Act.writeSync ∧
    (∀ v : List Nat, 0x18 ∈ v → syncMatches v = true) ∧
    (∀ (vid pidn : Nat) (pp : List (Option Nat)),
      chipByPID vid pidn ≠ some "ESP32-S2" →
      (replies.take 20).any syncStep = false →
      (runFlasher true vid pidn replies pp).1 = Outcome.errorOut "Sync Failed") := by
  refine ⟨syncLoopAux_synced _ 0, ?_, syncLoopAux_read_eq_write _ 0, ?_, ?_⟩
  · calc (syncLoop replies).1.count Act.writeSync
        ≤ (replies.take 20).length := syncLoopAux_writeSync_le _ 0
      _ ≤ 20 := by rw [List.length_take]; omega
  · intro v hv
    exact containsHex18_hexJoin_of_18 v hv
  · intro vid pidn pp hpid hfail
    have hsync : (syncLoop replies).2 = false :=
      (syncLoopAux_synced (replies.take 20) 0).trans hfail
    simp only [runFlasher, if_neg, Bool.true_eq_false, if_false]
    rw [if_neg hpid]
    simp only [runFlasherOpened, hsync, if_pos]

/-- Closed witness for the amended sync criterion. -/
theorem sync_success_criterion_witness :
    (runFlasher true 0 0 (List.replicate 20 none) []).1 = Outcome.errorOut "Sync Failed" ∧
    syncMatches [0x18] = true := by
  constructor
  · exact (sync_success_criterion (List.replicate 20 none)).2.2.2.2 0 0 []
      (by decide) (by decide)
  · exact (sync_success_criterion []).2.2.2.1 [0x18] (by decide)

/- ============================================================
   C4 — the reset pulse fires once, after the 11th silent attempt
   ============================================================ -/

/-- C4.  Against a transport that never acknowledges, the sync loop's
transport trace is exactly 11 frame/read pairs, then the one DTR/RTS
reset pulse, then the 9 remaining frame/read pairs: the pulse is issued
exactly once, immediately after the 11th unacknowledged sync frame. -/
theorem sync_reset_after_11th (replies : List (Option (List Nat)))
    (hlen : 20 ≤ replies.length) (hfail : ∀ r ∈ replies, syncStep r = false) :
    (syncLoop replies).1
      = (List.replicate 11 framePair).flatten ++ resetPulse
        ++ (List.replicate 9 framePair).flatten ∧
    (syncLoop replies).1.count (Act.setSignals false true) = 1 ∧
    (syncLoop replies).1.count Act.writeSync = 20 := by
  have hfail20 : ∀ r ∈ replies.take 20, syncStep r = false :=
    fun r hr => hfail r (List.mem_of_mem_take hr)
  have hl : (replies.take 20).length = 20 := by
    rw [List.length_take]; omega
  have htr : (syncLoop replies).1 = failTrace 20 0 := by
    rw [syncLoop, syncLoopAux_allFail _ 0 hfail20, hl]
  rw [htr]
  refine ⟨?_, ?_, ?_⟩ <;> decide

/-- Closed witness: twenty timeouts trigger exactly the documented trace. -/
theorem sync_reset_after_11th_witness :
    (syncLoop (List.replicate 20 (none : Option (List Nat)))).1
      = (List.replicate 11 framePair).flatten ++ resetPulse
        ++ (List.replicate 9 framePair).flatten :=
  (sync_reset_after_11th (List.replicate 20 none) (by decide) (by decide)).1

/- ============================================================
   C1 — the magic alias table
   ============================================================ -/

/-- C1.  Every literal magic value of the alias table resolves to the
family recorded for it in `tablePairs` — which documents the first-match
tie-break: the duplicated value 9, also listed as `0x09` in the ESP32-C3
row, resolves to ESP32-S3 — and any other or absent magic value resolves
to "Unknown ESP". -/
theorem magic_table_resolution :
    (∀ p ∈ tablePairs, resolveChip none (some p.1) = p.2) ∧
    resolveChip none (some 0x09) = "ESP32-S3" ∧
    resolveChip none none = "Unknown ESP" ∧
    (∀ m : Nat, m ∉ tableMagics → resolveChip none (some m) = "Unknown ESP") := by
  refine ⟨by decide, by decide, by decide, ?_⟩
  intro m hm
  simp only [tableMagics, tablePairs, List.map_cons, List.map_nil, List.mem_cons,
    List.not_mem_nil, or_false, not_or] at hm
  obtain ⟨h1, h2, h3, h4, h5, h6, h7, h8, h9, h10, h11, h12, h13, h14, h15, h16, h17, h18⟩ := hm
  simp [resolveChip, h1, h2, h3, h4, h5, h6, h7, h8, h9, h10, h11, h12, h13, h14,
    h15, h16, h17, h18]

/-- Closed witness: a value outside the table resolves to "Unknown ESP",
and a table row (the ESP8266 one) resolves as documented. -/
theorem magic_table_resolution_witness :
    (0xDEADBEEF : Nat) ∉ tableMagics ∧
    resolveChip none (some 0xDEADBEEF) = "Unknown ESP" ∧
    resolveChip none (some 0xFFF0C101) = "ESP8266" :=
  ⟨by decide,
   magic_table_resolution.2.2.2 0xDEADBEEF (by decide),
   magic_table_resolution.1 (0xFFF0C101, "ESP8266") (by decide)⟩

/- ============================================================
   Retry-loop unfolding
   ============================================================ -/

/-- One-step unfolding of the retry loop body for positive fuel. -/
theorem flashRetryAux_fuelSucc (chip : String) (outcome : Nat → AttemptOutcome)
    (ro : Bool) (attempt fuel : Nat) :
    flashRetryAux chip outcome ro attempt (fuel + 1) =
      match outcome attempt with
      | AttemptOutcome.success => (FlashOutcome.flashOk, attempt, [RAct.flashAttempt attempt])
      | AttemptOutcome.failure d =>
        if chip = "ESP32-S2" ∧ d > 15000 then
          (FlashOutcome.bootloaderRequired, attempt, [RAct.flashAttempt attempt])
        else if attempt = 1 ∧ chip = "ESP32-S2" then
          if ro then
            ((flashRetryAux chip outcome ro (attempt + 1) fuel).1,
             (flashRetryAux chip outcome ro (attempt + 1) fuel).2.1,
             RAct.flashAttempt attempt :: RAct.closeCurrentPort :: RAct.sleepMs 1000
               :: RAct.redetectPort :: (flashRetryAux chip outcome ro (attempt + 1) fuel).2.2)
          else
            (FlashOutcome.cancelled, attempt,
             [RAct.flashAttempt attempt, RAct.closeCurrentPort, RAct.sleepMs 1000,
              RAct.redetectPort])
        else
          (FlashOutcome.fatalError, attempt, [RAct.flashAttempt attempt]) := rfl

/- ============================================================
   C3 — S2 bootloader-timeout threshold
   ============================================================ -/

/-- Attempt oracle for the threshold counterexample: attempt 1 fails
after exactly 15000ms, later attempts fail fast. -/
def thresholdProbe : Nat → AttemptOutcome := fun n =>
  if n = 1 then AttemptOutcome.failure 15000 else AttemptOutcome.failure 0

/-- C3 counterexample.  An ESP32-S2 flash attempt that fails with
elapsed duration exactly 15000ms — hence ≥ 15000ms — is NOT classified
as a bootloader-mode failure: the code's strict `duration > 15000` test
sends it down the transient re-detect path instead, ending in the
generic error state after 2 attempts. -/
theorem s2_threshold_counterexample :
    15000 ≤ 15000 ∧
    (flashFirmwareWithRetry "ESP32-S2" thresholdProbe true).1 ≠
      FlashOutcome.bootloaderRequired ∧
    (flashFirmwareWithRetry "ESP32-S2" thresholdProbe true).1 = FlashOutcome.fatalError ∧
    (flashFirmwareWithRetry "ESP32-S2" thresholdProbe true).2.1 = 2 := by
  refine ⟨le_refl _, ?_, ?_, ?_⟩ <;> decide

/-- C3 (amended).  For chip family ESP32-S2, whenever flash attempt 1
fails with elapsed duration strictly greater than 15000ms, the
orchestrator transitions immediately to the bootloader-required terminal
state after exactly that 1 attempt, with no re-acquisition and no
further retries regardless of the remaining attempt budget. -/
theorem s2_bootloader_timeout (f : Nat → AttemptOutcome) (d : Nat)
    (hd : 15000 < d) (hf : f 1 = AttemptOutcome.failure d) (ro : Bool) :
    flashFirmwareWithRetry "ESP32-S2" f ro
      = (FlashOutcome.bootloaderRequired, 1, [RAct.flashAttempt 1]) := by
  show flashRetryAux "ESP32-S2" f ro 1 (2 + 1) = _
  rw [flashRetryAux_fuelSucc, hf]
  simp only []
  rw [if_pos (⟨trivial, hd⟩ : True ∧ d > 15000)]

/-- Closed witness for the strict-threshold classification. -/
theorem s2_bootloader_timeout_witness :
    flashFirmwareWithRetry "ESP32-S2" (fun _ => AttemptOutcome.failure 15001) true
      = (FlashOutcome.bootloaderRequired, 1, [RAct.flashAttempt 1]) :=
  s2_bootloader_timeout (fun _ => AttemptOutcome.failure 15001) 15001 (by omega) rfl true

/- ============================================================
   C5 — S2 transient recovery
   ============================================================ -/

/-- C5.  For family ESP32-S2, a fast failure (< 15000ms) on attempt 1
followed by success on attempt 2 yields the success outcome after
exactly 2 attempts, with exactly one transport re-acquisition preceded
by closing the old port and a 1000ms pause; if the re-acquisition yields
no port (the user aborts the re-detect), the session ends cancelled
after attempt 1. -/
theorem s2_transient_recovery (f : Nat → AttemptOutcome) (d : Nat) (hd : d < 15000)
    (h1 : f 1 = AttemptOutcome.failure d) (h2 : f 2 = AttemptOutcome.success) :
    flashFirmwareWithRetry "ESP32-S2" f true
      = (FlashOutcome.flashOk, 2,
         [RAct.flashAttempt 1, RAct.closeCurrentPort, RAct.sleepMs 1000,
          RAct.redetectPort, RAct.flashAttempt 2]) ∧
    (flashFirmwareWithRetry "ESP32-S2" f true).2.2.count RAct.redetectPort = 1 ∧
    flashFirmwareWithRetry "ESP32-S2" f false
      = (FlashOutcome.cancelled, 1,
         [RAct.flashAttempt 1, RAct.closeCurrentPort, RAct.sleepMs 1000,
          RAct.redetectPort]) := by
  have hng : ¬(True ∧ d > 15000) := fun hc => absurd hc.2 (by omega)
  have hmain : flashFirmwareWithRetry "ESP32-S2" f true
      = (FlashOutcome.flashOk, 2,
         [RAct.flashAttempt 1, RAct.closeCurrentPort, RAct.sleepMs 1000,
          RAct.redetectPort, RAct.flashAttempt 2]) := by
    show flashRetryAux "ESP32-S2" f true 1 (2 + 1) = _
    rw [flashRetryAux_fuelSucc, h1]
    simp only []
    rw [if_neg hng, if_pos (⟨trivial, trivial⟩ : True ∧ True), if_pos trivial]
    rw [show flashRetryAux "ESP32-S2" f true (1 + 1) 2
        = flashRetryAux "ESP32-S2" f true 2 (1 + 1) from rfl]
    rw [flashRetryAux_fuelSucc, h2]
  have hcancel : flashFirmwareWithRetry "ESP32-S2" f false
      = (FlashOutcome.cancelled, 1,
         [RAct.flashAttempt 1, RAct.closeCurrentPort, RAct.sleepMs 1000,
          RAct.redetectPort]) := by
    show flashRetryAux "ESP32-S2" f false 1 (2 + 1) = _
    rw [flashRetryAux_fuelSucc, h1]
    simp only []
    rw [if_neg hng, if_pos (⟨trivial, trivial⟩ : True ∧ True),
      if_neg (by decide : ¬(false = true))]
  refine ⟨hmain, ?_, hcancel⟩
  rw [hmain]
  decide

/-- Closed witness for the transient-recovery scenario. -/
theorem s2_transient_recovery_witness :
    flashFirmwareWithRetry "ESP32-S2"
        (fun n => if n = 1 then AttemptOutcome.failure 100 else AttemptOutcome.success) true
      = (FlashOutcome.flashOk, 2,
         [RAct.flashAttempt 1, RAct.closeCurrentPort, RAct.sleepMs 1000,
          RAct.redetectPort, RAct.flashAttempt 2]) :=
  (s2_transient_recovery
    (fun n => if n = 1 then AttemptOutcome.failure 100 else AttemptOutcome.success)
    100 (by omega) rfl rfl).1

/- ============================================================
   C8 — native-USB S2 short-circuit
   ============================================================ -/

/-- C8.  A descriptor with vendor id 0x303A and product id 0x0002 or
0x0003 makes identification return ESP32-S2 immediately: the session
trace is the port request alone — the port is never opened and no sync
or register-read frame is ever written, whatever the (unread) transport
would have replied. -/
theorem s2_pid_shortcircuit (sr : List (Option (List Nat))) (pp : List (Option Nat)) :
    runFlasher true 0x303A 0x0002 sr pp
      = (Outcome.awaitConfirm "ESP32-S2", [Act.requestPort]) ∧
    runFlasher true 0x303A 0x0003 sr pp
      = (Outcome.awaitConfirm "ESP32-S2", [Act.requestPort]) ∧
    (∀ b, Act.openPort b ∉ (runFlasher true 0x303A 0x0002 sr pp).2) ∧
    Act.writeSync ∉ (runFlasher true 0x303A 0x0002 sr pp).2 ∧
    Act.writeReadReg ∉ (runFlasher true 0x303A 0x0002 sr pp).2 ∧
    (∀ b, Act.openPort b ∉ (runFlasher true 0x303A 0x0003 sr pp).2) ∧
    Act.writeSync ∉ (runFlasher true 0x303A 0x0003 sr pp).2 ∧
    Act.writeReadReg ∉ (runFlasher true 0x303A 0x0003 sr pp).2 := by
  have h2 : runFlasher true 0x303A 0x0002 sr pp
      = (Outcome.awaitConfirm "ESP32-S2", [Act.requestPort]) := rfl
  have h3 : runFlasher true 0x303A 0x0003 sr pp
      = (Outcome.awaitConfirm "ESP32-S2", [Act.requestPort]) := rfl
  refine ⟨h2, h3, ?_, ?_, ?_, ?_, ?_, ?_⟩
  · intro b; rw [h2]; simp
  · rw [h2]; simp
  · rw [h2]; simp
  · intro b; rw [h3]; simp
  · rw [h3]; simp
  · rw [h3]; simp

/- ============================================================
   C9 — flash address selection
   ============================================================ -/

/-- C9.  The selected flash address is a function of chip family and the
keep-data preference: 0x10000 exactly when keep-data is set and the
family name starts with "ESP32" (so ESP32 with keep-data gets 0x10000,
ESP32 without keep-data and ESP8266 always get 0x0000); keep-data
selects the update image, its absence the factory image. -/
theorem address_selection :
    flashAddress true "ESP32" = 0x10000 ∧
    flashAddress false "ESP32" = 0x0000 ∧
    (∀ k, flashAddress k "ESP8266" = 0x0000) ∧
    (∀ chip : String, startsWithESP32 chip = true → flashAddress true chip = 0x10000) ∧
    (∀ chip : String, flashAddress false chip = 0x0000) ∧
    (∀ b : Build, selectedFirmware true b = b.update ∧ selectedFirmware false b = b.factory) := by
  refine ⟨by decide, by decide, ?_, ?_, ?_, ?_⟩
  · intro k; cases k <;> decide
  · intro chip h; simp [flashAddress, h]
  · intro chip; simp [flashAddress]
  · intro b; exact ⟨rfl, rfl⟩

/-- Closed witness: an update image on a 32-bit family goes to 0x10000. -/
theorem address_selection_witness : flashAddress true "ESP32-S3" = 0x10000 :=
  address_selection.2.2.2.1 "ESP32-S3" (by decide)

/- ============================================================
   C10 — the NATIVE_CDC hint is inert
   ============================================================ -/

theorem resolveChip_natcdc (m : Option Nat) :
    resolveChip (some "NATIVE_CDC") m = resolveChip none m := by
  unfold resolveChip
  rw [if_neg (by decide : ¬ ((some "NATIVE_CDC" : Option String) = some "ESP32-C3")),
      if_neg (by decide : ¬ ((none : Option String) = some "ESP32-C3"))]

theorem runFlasherOpened_natcdc (sr : List (Option (List Nat))) (pp : List (Option Nat)) :
    runFlasherOpened (some "NATIVE_CDC") sr pp = runFlasherOpened none sr pp := by
  simp only [runFlasherOpened, resolveChip_natcdc]

/-- C10.  For product ids 0x1001, 0x1002, 0x1003 under vendor 0x303A the
"NATIVE_CDC" hint never influences the session: for every sequence of
transport replies and probe results, the whole outcome and trace equal
those of a run with no USB hint at all (the hint is never "ESP32-C3", so
the PID override branch of the resolution step can never be taken). -/
theorem nativeCDC_hint_inert (g : Bool) (sr : List (Option (List Nat)))
    (pp : List (Option Nat)) :
    runFlasher g 0x303A 0x1001 sr pp = runFlasher g 0 0 sr pp ∧
    runFlasher g 0x303A 0x1002 sr pp = runFlasher g 0 0 sr pp ∧
    runFlasher g 0x303A 0x1003 sr pp = runFlasher g 0 0 sr pp := by
  cases g with
  | false => exact ⟨rfl, rfl, rfl⟩
  | true =>
    refine ⟨?_, ?_, ?_⟩ <;>
      simp [runFlasher, chipByPID, runFlasherOpened_natcdc]

/- ============================================================
   C6 — transport release on terminal outcomes
   ============================================================ -/

theorem closePort_not_in_syncFailTrace (sr : List (Option (List Nat))) :
    Act.closePort ∉ syncFailTraceOf sr := by
  intro h
  simp only [syncFailTraceOf, openTrace, List.mem_append, List.mem_cons,
    List.not_mem_nil, or_false] at h
  rcases h with (h | h) | h
  · simp at h
  · exact closePort_not_in_syncLoopAux (sr.take 20) 0 h
  · simp at h

theorem closePort_in_identifiedTrace (result : String) (sr : List (Option (List Nat)))
    (pp : List (Option Nat)) (h : ¬(result = "ESP32-S2")) :
    Act.closePort ∈ identifiedTrace result sr pp := by
  simp [identifiedTrace, h]

theorem releaseLocks_in_syncFailTrace (sr : List (Option (List Nat))) :
    Act.releaseWriter ∈ syncFailTraceOf sr ∧ Act.releaseReader ∈ syncFailTraceOf sr := by
  constructor <;> simp [syncFailTraceOf]

theorem releaseLocks_in_identifiedTrace (result : String) (sr : List (Option (List Nat)))
    (pp : List (Option Nat)) :
    Act.releaseWriter ∈ identifiedTrace result sr pp ∧
    Act.releaseReader ∈ identifiedTrace result sr pp := by
  constructor <;> simp [identifiedTrace]

theorem identifyOutcome_unknown_eq (result : String)
    (h : identifyOutcome result = Outcome.unknownESP) : result = "Unknown ESP" := by
  by_contra hu
  unfold identifyOutcome at h
  rw [if_neg hu] at h
  cases hfb : findBuild result with
  | none => rw [hfb] at h; exact absurd h (by simp)
  | some bb => rw [hfb] at h; exact absurd h (by simp)

theorem identifyOutcome_unsupported_eq (result c : String)
    (h : identifyOutcome result = Outcome.unsupported c) :
    findBuild result = none ∧ result = c := by
  unfold identifyOutcome at h
  by_cases hu : result = "Unknown ESP"
  · rw [if_pos hu] at h; exact absurd h (by simp)
  · rw [if_neg hu] at h
    cases hfb : findBuild result with
    | none =>
      rw [hfb] at h
      simp only [Outcome.unsupported.injEq] at h
      exact ⟨rfl, h⟩
    | some bb => rw [hfb] at h; exact absurd h (by simp)

theorem identifyOutcome_awaitConfirm_eq (result c : String)
    (h : identifyOutcome result = Outcome.awaitConfirm c) : result = c := by
  unfold identifyOutcome at h
  by_cases hu : result = "Unknown ESP"
  · rw [if_pos hu] at h; exact absurd h (by simp)
  · rw [if_neg hu] at h
    cases hfb : findBuild result with
    | none => rw [hfb] at h; exact absurd h (by simp)
    | some bb =>
      rw [hfb] at h
      simp only [Outcome.awaitConfirm.injEq] at h
      exact h

theorem identifyOutcome_ne_errorOut (result m : String) :
    identifyOutcome result ≠ Outcome.errorOut m := by
  unfold identifyOutcome
  by_cases hu : result = "Unknown ESP"
  · rw [if_pos hu]; simp
  · rw [if_neg hu]
    cases hfb : findBuild result with
    | none => simp
    | some bb => simp

theorem safeClosePort_no_propagate (p ra wa ct lt cl : Bool) :
    (safeClosePort p ra wa ct lt cl).2 = none := by
  by_cases hp : p = false
  · simp [safeClosePort, hp]
  · by_cases hcl : cl = true <;> simp [safeClosePort, hp, hcl]

theorem runFlasherOpened_cleanup (pid : Option String) (sr : List (Option (List Nat)))
    (pp : List (Option Nat)) :
    Act.releaseWriter ∈ (runFlasherOpened pid sr pp).2 ∧
    Act.releaseReader ∈ (runFlasherOpened pid sr pp).2 ∧
    ((runFlasherOpened pid sr pp).1 = Outcome.unknownESP →
      Act.closePort ∈ (runFlasherOpened pid sr pp).2) ∧
    (∀ c, (runFlasherOpened pid sr pp).1 = Outcome.unsupported c →
      Act.closePort ∈ (runFlasherOpened pid sr pp).2) ∧
    (∀ c, (runFlasherOpened pid sr pp).1 = Outcome.awaitConfirm c → ¬(c = "ESP32-S2") →
      Act.closePort ∈ (runFlasherOpened pid sr pp).2) ∧
    (∀ m, (runFlasherOpened pid sr pp).1 = Outcome.errorOut m →
      Act.closePort ∉ (runFlasherOpened pid sr pp).2) := by
  by_cases hs : (syncLoop sr).2 = false
  · have he : runFlasherOpened pid sr pp
        = (Outcome.errorOut "Sync Failed", syncFailTraceOf sr) := by
      simp only [runFlasherOpened, hs, if_pos]
    rw [he]
    refine ⟨(releaseLocks_in_syncFailTrace sr).1, (releaseLocks_in_syncFailTrace sr).2,
      ?_, ?_, ?_, ?_⟩
    · intro h; simp at h
    · intro c h; simp at h
    · intro c h; simp at h
    · intro m _; exact closePort_not_in_syncFailTrace sr
  · have hs2 : (syncLoop sr).2 = true := by
      cases h2 : (syncLoop sr).2
      · exact absurd h2 hs
      · rfl
    have he : runFlasherOpened pid sr pp
        = (identifyOutcome (resolveChip pid (probeLoop pp).2),
           identifiedTrace (resolveChip pid (probeLoop pp).2) sr pp) := by
      simp only [runFlasherOpened, hs2, Bool.true_eq_false, if_false]
    rw [he]
    refine ⟨(releaseLocks_in_identifiedTrace _ sr pp).1,
      (releaseLocks_in_identifiedTrace _ sr pp).2, ?_, ?_, ?_, ?_⟩
    · intro h
      have hr := identifyOutcome_unknown_eq _ h
      exact closePort_in_identifiedTrace _ sr pp (by rw [hr]; decide)
    · intro c h
      obtain ⟨hfb, _⟩ := identifyOutcome_unsupported_eq _ c h
      refine closePort_in_identifiedTrace _ sr pp (fun hz => ?_)
      rw [hz] at hfb
      exact absurd hfb (by decide)
    · intro c h hc
      have hr := identifyOutcome_awaitConfirm_eq _ c h
      exact closePort_in_identifiedTrace _ sr pp (by rw [hr]; exact hc)
    · intro m h
      exact absurd h (identifyOutcome_ne_errorOut _ m)

/-- C6 counterexample.  A session that ends in the `"Sync Failed"` error
(20 silent sync attempts) opened the port and took both locks, and its
whole transport trace contains no `port.close()`: the port is not
"fully released" on this terminal outcome, contrary to the claim. -/
theorem release_counterexample :
    (runFlasher true 0 0 (List.replicate 20 none) (List.replicate 5 none)).1
      = Outcome.errorOut "Sync Failed" ∧
    Act.openPort 115200 ∈ (runFlasher true 0 0 (List.replicate 20 none) (List.replicate 5 none)).2 ∧
    Act.getWriter ∈ (runFlasher true 0 0 (List.replicate 20 none) (List.replicate 5 none)).2 ∧
    Act.closePort ∉ (runFlasher true 0 0 (List.replicate 20 none) (List.replicate 5 none)).2 := by
  refine ⟨?_, ?_, ?_, ?_⟩ <;> decide

/-- C6 (amended).  On every terminal outcome the read/write locks taken
during identification are released (whenever the trace acquires a lock
it also releases it), and `safeClosePort` swallows every release/close
failure, propagating none of them; but the port itself is closed only on
the terminal outcomes that follow a successful, non-ESP32-S2
identification (unknown, unsupported, or install prompt for another
family) — on error outcomes such as `"Sync Failed"` the port is left
open with only its locks released. -/
theorem transport_release_policy (granted : Bool) (vid pidn : Nat)
    (sr : List (Option (List Nat))) (pp : List (Option Nat)) :
    (Act.getWriter ∈ (runFlasher granted vid pidn sr pp).2 →
      Act.releaseWriter ∈ (runFlasher granted vid pidn sr pp).2) ∧
    (Act.getReader ∈ (runFlasher granted vid pidn sr pp).2 →
      Act.releaseReader ∈ (runFlasher granted vid pidn sr pp).2) ∧
    ((runFlasher granted vid pidn sr pp).1 = Outcome.unknownESP →
      Act.closePort ∈ (runFlasher granted vid pidn sr pp).2) ∧
    (∀ c, (runFlasher granted vid pidn sr pp).1 = Outcome.unsupported c →
      Act.closePort ∈ (runFlasher granted vid pidn sr pp).2) ∧
    (∀ c, (runFlasher granted vid pidn sr pp).1 = Outcome.awaitConfirm c →
      ¬(c = "ESP32-S2") → Act.closePort ∈ (runFlasher granted vid pidn sr pp).2) ∧
    (∀ m, (runFlasher granted vid pidn sr pp).1 = Outcome.errorOut m →
      Act.closePort ∉ (runFlasher granted vid pidn sr pp).2) ∧
    (∀ p ra wa ct lt cl : Bool, (safeClosePort p ra wa ct lt cl).2 = none) := by
  cases granted with
  | false =>
    refine ⟨?_, ?_, ?_, ?_, ?_, ?_, safeClosePort_no_propagate⟩ <;> simp [runFlasher]
  | true =>
    by_cases hpid : chipByPID vid pidn = some "ESP32-S2"
    · have hfb : (findBuild "ESP32-S2").isSome = true := by decide
      have he : runFlasher true vid pidn sr pp
          = (Outcome.awaitConfirm "ESP32-S2", [Act.requestPort]) := by
        simp [runFlasher, hpid, hfb]
      rw [he]
      refine ⟨?_, ?_, ?_, ?_, ?_, ?_, safeClosePort_no_propagate⟩
      · intro h; simp at h
      · intro h; simp at h
      · intro h; simp at h
      · intro c h; simp at h
      · intro c h hc
        simp only [Outcome.awaitConfirm.injEq] at h
        exact absurd h.symm hc
      · intro m h; simp at h
    · have he : runFlasher true vid pidn sr pp
          = ((runFlasherOpened (chipByPID vid pidn) sr pp).1,
             Act.requestPort :: (runFlasherOpened (chipByPID vid pidn) sr pp).2) := by
        simp only [runFlasher]
        rw [if_neg (by decide : ¬(true = false)), if_neg hpid]
      obtain ⟨o1, o2, o3, o4, o5, o6⟩ := runFlasherOpened_cleanup (chipByPID vid pidn) sr pp
      rw [he]
      refine ⟨?_, ?_, ?_, ?_, ?_, ?_, safeClosePort_no_propagate⟩
      · intro _; exact List.mem_cons_of_mem _ o1
      · intro _; exact List.mem_cons_of_mem _ o2
      · intro h; exact List.mem_cons_of_mem _ (o3 h)
      · intro c h; exact List.mem_cons_of_mem _ (o4 c h)
      · intro c h hc; exact List.mem_cons_of_mem _ (o5 c h hc)
      · intro m h hmem
        rcases List.mem_cons.mp hmem with h1 | h1
        · simp at h1
        · exact o6 m h h1

/-- Closed witness: an unknown-device outcome does close the port. -/
theorem transport_release_policy_witness :
    Act.closePort ∈ (runFlasher true 0 0 [some [0x18]] []).2 :=
  (transport_release_policy true 0 0 [some [0x18]] []).2.2.1 (by decide)
